import Mathlib

/-!
Verification of the ns-3 cellular city simulation scripts
(`cellular_city_sim.cc`, single cell, and `cellular_city_multicell_sim.cc`,
multi cell) against their natural-language specification.

The embedding covers the parts of the scripts that embody design decisions:
the technology-profile selection, the eNodeB grid placement (Topology
Generator), the per-UE UDP client configuration (Traffic Model Descriptor)
and the flow-statistics aggregation stage (Flow Statistics Aggregator).
`double` arithmetic of the source is modelled over `ℚ`; the unsigned
integer counters (which cannot overflow at the scales involved) over `ℕ`.
-/

namespace CellularSim

/-- One entry of the `FlowMonitor::FlowStats` map as consumed by the
aggregation loop: packets received, bytes received, packets lost, and the
cumulative delay and jitter sums in seconds (`GetSeconds()`). -/
structure FlowStats where
  rxPackets : ℕ
  rxBytes : ℕ
  lostPackets : ℕ
  delaySum : ℚ
  jitterSum : ℚ
  deriving DecidableEq, Repr

/-- The running totals of the aggregation loop (`totalDelay`, `totalJitter`,
`totalRxPackets`, `totalRxBytes`, `totalLostPackets` in both scripts). -/
structure Totals where
  totalDelay : ℚ
  totalJitter : ℚ
  totalRxPackets : ℕ
  totalRxBytes : ℕ
  totalLostPackets : ℕ
  deriving DecidableEq, Repr

/-- The totals before the loop over `stats` runs: everything zero. -/
def initTotals : Totals := ⟨0, 0, 0, 0, 0⟩

/-- Loop body of the aggregation loop of `cellular_city_multicell_sim.cc`
(lines 269–276): delay summed unconditionally, jitter only when
`fs.rxPackets > 1`, and the three counters summed unconditionally. -/
def accumFlowMulti (t : Totals) (fs : FlowStats) : Totals :=
  { totalDelay := t.totalDelay + fs.delaySum
    totalJitter := if 1 < fs.rxPackets then t.totalJitter + fs.jitterSum else t.totalJitter
    totalRxPackets := t.totalRxPackets + fs.rxPackets
    totalRxBytes := t.totalRxBytes + fs.rxBytes
    totalLostPackets := t.totalLostPackets + fs.lostPackets }

/-- Loop body of the aggregation loop of `cellular_city_sim.cc`
(lines 244–252); textually the same computation as the multi-cell one. -/
def accumFlowSingle (t : Totals) (fs : FlowStats) : Totals :=
  { totalDelay := t.totalDelay + fs.delaySum
    totalJitter := if 1 < fs.rxPackets then t.totalJitter + fs.jitterSum else t.totalJitter
    totalRxPackets := t.totalRxPackets + fs.rxPackets
    totalRxBytes := t.totalRxBytes + fs.rxBytes
    totalLostPackets := t.totalLostPackets + fs.lostPackets }

/-- The aggregation-relevant fields of the final report printed by the
scripts (`meanDelayMs`, `jitterMs`, `throughputMbps`, `lossRatePct`,
`totalRxPackets`, `totalLostPackets`). -/
structure AggregateReport where
  meanDelayMs : ℚ
  jitterMs : ℚ
  throughputMbps : ℚ
  lossRatePct : ℚ
  totalRxPackets : ℕ
  totalLostPackets : ℕ
  deriving DecidableEq, Repr

/-- Result-processing stage of `cellular_city_multicell_sim.cc`
(lines 243–303): fold the stats map, then compute the guarded aggregate
metrics.  `meanDelayMs`, `jitterMs` and `throughputMbps` keep their
initial value `0.0` unless `totalRxPackets > 0`; the mean jitter divisor
`(double)(totalRxPackets - 1)` is the guarded `uint64_t` subtraction;
`lossRatePct` keeps `0.0` unless `totalRxPackets + totalLostPackets > 0`. -/
def aggregateMulti (flows : List FlowStats) (simTime : ℚ) : AggregateReport :=
  let t := List.foldl accumFlowMulti initTotals flows
  let meanDelayMs : ℚ :=
    if 0 < t.totalRxPackets then t.totalDelay / (t.totalRxPackets : ℚ) * 1000 else 0
  let jitterMs : ℚ :=
    if 0 < t.totalRxPackets then
      (if 1 < t.totalRxPackets then
          t.totalJitter / ((t.totalRxPackets - 1 : ℕ) : ℚ)
        else 0) * 1000
    else 0
  let throughputMbps : ℚ :=
    if 0 < t.totalRxPackets then (t.totalRxBytes : ℚ) * 8 / (simTime * 1000000) else 0
  let totalOfferedPackets : ℕ := t.totalRxPackets + t.totalLostPackets
  let lossRatePct : ℚ :=
    if 0 < totalOfferedPackets then
      (t.totalLostPackets : ℚ) * 100 / (totalOfferedPackets : ℚ)
    else 0
  { meanDelayMs := meanDelayMs
    jitterMs := jitterMs
    throughputMbps := throughputMbps
    lossRatePct := lossRatePct
    totalRxPackets := t.totalRxPackets
    totalLostPackets := t.totalLostPackets }

/-- Result-processing stage of `cellular_city_sim.cc` (lines 218–280);
textually the same computation as the multi-cell one. -/
def aggregateSingle (flows : List FlowStats) (simTime : ℚ) : AggregateReport :=
  let t := List.foldl accumFlowSingle initTotals flows
  let meanDelayMs : ℚ :=
    if 0 < t.totalRxPackets then t.totalDelay / (t.totalRxPackets : ℚ) * 1000 else 0
  let jitterMs : ℚ :=
    if 0 < t.totalRxPackets then
      (if 1 < t.totalRxPackets then
          t.totalJitter / ((t.totalRxPackets - 1 : ℕ) : ℚ)
        else 0) * 1000
    else 0
  let throughputMbps : ℚ :=
    if 0 < t.totalRxPackets then (t.totalRxBytes : ℚ) * 8 / (simTime * 1000000) else 0
  let totalOfferedPackets : ℕ := t.totalRxPackets + t.totalLostPackets
  let lossRatePct : ℚ :=
    if 0 < totalOfferedPackets then
      (t.totalLostPackets : ℚ) * 100 / (totalOfferedPackets : ℚ)
    else 0
  { meanDelayMs := meanDelayMs
    jitterMs := jitterMs
    throughputMbps := throughputMbps
    lossRatePct := lossRatePct
    totalRxPackets := t.totalRxPackets
    totalLostPackets := t.totalLostPackets }

/-- Specification-level sum: total received packets over all flows. -/
def sumRx (fl : List FlowStats) : ℕ := (fl.map FlowStats.rxPackets).sum

/-- Specification-level sum: total received bytes over all flows. -/
def sumBytes (fl : List FlowStats) : ℕ := (fl.map FlowStats.rxBytes).sum

/-- Specification-level sum: total lost packets over all flows. -/
def sumLost (fl : List FlowStats) : ℕ := (fl.map FlowStats.lostPackets).sum

/-- Specification-level sum: cumulative delay over all flows,
unconditionally. -/
def sumDelay (fl : List FlowStats) : ℚ := (fl.map FlowStats.delaySum).sum

/-- Specification-level sum: cumulative jitter over exactly those flows
with strictly more than one received packet. -/
def sumJitterGuarded (fl : List FlowStats) : ℚ :=
  ((fl.filter fun f => 1 < f.rxPackets).map FlowStats.jitterSum).sum

/-- Number of grid rows of the eNodeB placement
(`cellular_city_multicell_sim.cc` lines 131–132):
`nRows = std::floor(std::sqrt(nEnbs)); if (nRows == 0) nRows = 1;`.
For the `uint16_t` range the `double` square root and floor are exact,
so this is `Nat.sqrt` clamped to at least 1. -/
def nRows (nEnbs : ℕ) : ℕ :=
  if Nat.sqrt nEnbs = 0 then 1 else Nat.sqrt nEnbs

/-- Number of grid columns (line 133):
`nCols = std::ceil(static_cast<double>(nEnbs) / nRows)`, i.e. the ceiling
division of `nEnbs` by `nRows` (exact over `double` in the `uint16_t`
range). -/
def nCols (nEnbs : ℕ) : ℕ := (nEnbs + nRows nEnbs - 1) / nRows nEnbs

/-- Position of eNodeB `i` (lines 135–149): with `half = areaSize/2`,
`dx = areaSize/(nCols+1)`, `dy = areaSize/(nRows+1)`, `row = i / nCols`,
`col = i % nCols`, the station sits at
`(-half + (col+1)*dx, -half + (row+1)*dy, 30)`. -/
def enbPosition (nEnbs : ℕ) (areaSize : ℚ) (i : ℕ) : ℚ × ℚ × ℚ :=
  (-(areaSize / 2) + ((i % nCols nEnbs : ℕ) + 1 : ℚ) * (areaSize / ((nCols nEnbs : ℚ) + 1)),
   -(areaSize / 2) + ((i / nCols nEnbs : ℕ) + 1 : ℚ) * (areaSize / ((nRows nEnbs : ℚ) + 1)),
   30)

/-- The positions assigned by the placement loop `for i = 0 .. nEnbs-1`. -/
def enbPositions (nEnbs : ℕ) (areaSize : ℚ) : List (ℚ × ℚ × ℚ) :=
  (List.range nEnbs).map (enbPosition nEnbs areaSize)

/-- The parameters set by the technology-profile branches: the eNodeB
downlink/uplink bandwidths in resource blocks (lines 68–81) and the
PGW–remote-host channel delay in milliseconds (lines 96–105). -/
structure TechConfig where
  dlBandwidth : ℕ
  ulBandwidth : ℕ
  coreDelayMs : ℕ
  deriving DecidableEq, Repr

/-- Technology-profile selection of both scripts: `tech == "4g"` gives
50 RBs and a 10 ms core link delay, `tech == "5g"` gives 100 RBs and
2 ms, and any other value hits `NS_ABORT_MSG` — modelled as `none` —
before any node, device or application is created. -/
def selectTech (tech : String) : Option TechConfig :=
  if tech = "4g" then some ⟨50, 50, 10⟩
  else if tech = "5g" then some ⟨100, 100, 2⟩
  else none

/-- The attributes of one `UdpClient` application together with the
start/stop times applied to the client container. -/
structure UdpClientApp where
  maxPackets : ℕ
  intervalSec : ℚ
  packetSizeBytes : ℕ
  startSec : ℚ
  stopSec : ℚ
  deriving DecidableEq, Repr

/-- UDP client configuration loop of `cellular_city_sim.cc`
(lines 184–199): one client per UE with `MaxPackets = 0xFFFFFFFF`,
`Interval = 0.1 s`, `PacketSize = 200`, started at `0.5 s` and stopped at
`simTime`. -/
def singleCellClientApps (nUes : ℕ) (simTime : ℚ) : List UdpClientApp :=
  (List.range nUes).map fun _ => ⟨4294967295, 1/10, 200, 1/2, simTime⟩

/-- UDP client configuration loop of `cellular_city_multicell_sim.cc`
(lines 209–224): one client per UE with `MaxPackets = 0xFFFFFFFF`,
`Interval = 0.02 s`, `PacketSize = 200`, started at `0.5 s` and stopped
at `simTime`. -/
def multiCellClientApps (nUes : ℕ) (simTime : ℚ) : List UdpClientApp :=
  (List.range nUes).map fun _ => ⟨4294967295, 1/50, 200, 1/2, simTime⟩

/-- The spec's two-flow worked example: flow A with 10 received packets,
2 lost packets, delay sum 1.0 s and jitter sum 0.2 s; flow B with 5
received packets, 0 lost, delay sum 0.3 s and jitter sum 0.05 s.  Byte
counts correspond to the 200-byte packets of the traffic model. -/
def exampleFlows : List FlowStats :=
  [⟨10, 2000, 2, 1, 1/5⟩, ⟨5, 1000, 0, 3/10, 1/20⟩]

/-- A flow record with zero received packets but five lost packets. -/
def lostOnlyFlow : FlowStats := ⟨0, 0, 5, 0, 0⟩

lemma foldl_accumFlowMulti (fl : List FlowStats) : ∀ t : Totals,
    List.foldl accumFlowMulti t fl =
      ⟨t.totalDelay + sumDelay fl, t.totalJitter + sumJitterGuarded fl,
       t.totalRxPackets + sumRx fl, t.totalRxBytes + sumBytes fl,
       t.totalLostPackets + sumLost fl⟩ := by
  induction fl with
  | nil =>
      intro t
      simp [sumDelay, sumJitterGuarded, sumRx, sumBytes, sumLost]
  | cons f fs ih =>
      intro t
      by_cases h : 1 < f.rxPackets <;>
        simp [List.foldl_cons, accumFlowMulti, ih, h, sumDelay, sumJitterGuarded,
          sumRx, sumBytes, sumLost, List.filter_cons, add_assoc]

/-- The totals reached by the multi-cell aggregation loop, componentwise. -/
lemma totals_multi (fl : List FlowStats) :
    List.foldl accumFlowMulti initTotals fl =
      ⟨sumDelay fl, sumJitterGuarded fl, sumRx fl, sumBytes fl, sumLost fl⟩ := by
  rw [foldl_accumFlowMulti]
  simp [initTotals]

/-- The totals of the spec's two-flow example: delay sum 1.3 s, jitter
sum 0.25 s, 15 packets and 3000 bytes received, 2 packets lost. -/
lemma totals_exampleFlows :
    List.foldl accumFlowMulti initTotals exampleFlows = ⟨13/10, 1/4, 15, 3000, 2⟩ := by
  norm_num [exampleFlows, accumFlowMulti, initTotals, List.foldl_cons, List.foldl_nil]

/-- The totals of the single lost-only flow: only the lost counter moves. -/
lemma totals_lostOnlyFlow :
    List.foldl accumFlowMulti initTotals [lostOnlyFlow] = ⟨0, 0, 0, 0, 5⟩ := by
  norm_num [lostOnlyFlow, accumFlowMulti, initTotals, List.foldl_cons, List.foldl_nil]

lemma nRows_pos (N : ℕ) : 0 < nRows N := by
  unfold nRows
  split <;> simp_all [Nat.pos_of_ne_zero]

lemma nCols_pos (N : ℕ) (hN : 1 ≤ N) : 0 < nCols N := by
  have hr := nRows_pos N
  unfold nCols
  have h1 : 1 ≤ (N + nRows N - 1) / nRows N := by
    rw [Nat.one_le_div_iff hr]
    omega
  omega

/-- The grid has capacity for all stations: `N ≤ nRows N * nCols N`. -/
lemma le_rows_mul_cols (N : ℕ) (hN : 1 ≤ N) : N ≤ nRows N * nCols N := by
  have hr := nRows_pos N
  have h1 := Nat.div_add_mod (N + nRows N - 1) (nRows N)
  have h2 := Nat.mod_lt (N + nRows N - 1) hr
  unfold nCols
  omega

/-- The grid has no spare full row: `nRows N * nCols N < N + nRows N`. -/
lemma rows_mul_cols_lt (N : ℕ) (hN : 1 ≤ N) : nRows N * nCols N < N + nRows N := by
  have hr := nRows_pos N
  have h1 := Nat.div_mul_le_self (N + nRows N - 1) (nRows N)
  unfold nCols
  have h2 : (N + nRows N - 1) / nRows N * nRows N =
      nRows N * ((N + nRows N - 1) / nRows N) := Nat.mul_comm _ _
  omega

/-- A coordinate of the form `-A/2 + (k+1) * (A / (m+1))` with `k < m`
is strictly between `-A/2` and `A/2` when `A > 0`. -/
lemma coord_strict_bounds (A : ℚ) (hA : 0 < A) (k m : ℕ) (hk : k < m) :
    -(A / 2) < -(A / 2) + ((k : ℚ) + 1) * (A / ((m : ℚ) + 1)) ∧
      -(A / 2) + ((k : ℚ) + 1) * (A / ((m : ℚ) + 1)) < A / 2 := by
  have hm : (0 : ℚ) < (m : ℚ) + 1 := by positivity
  have hq : (0 : ℚ) < A / ((m : ℚ) + 1) := div_pos hA hm
  constructor
  · have hpos : (0 : ℚ) < ((k : ℚ) + 1) * (A / ((m : ℚ) + 1)) := by positivity
    linarith
  · have h1 : ((k : ℚ) + 1) < (m : ℚ) + 1 := by
      exact_mod_cast Nat.succ_lt_succ hk
    have h2 : ((k : ℚ) + 1) * (A / ((m : ℚ) + 1)) <
        ((m : ℚ) + 1) * (A / ((m : ℚ) + 1)) :=
      mul_lt_mul_of_pos_right h1 hq
    have h3 : ((m : ℚ) + 1) * (A / ((m : ℚ) + 1)) = A := by
      field_simp
    linarith

/-- Every station index `i < N` lands in a row strictly below `nRows N`. -/
lemma row_lt_nRows (N : ℕ) (hN : 1 ≤ N) (i : ℕ) (hi : i < N) :
    i / nCols N < nRows N := by
  have hc := nCols_pos N hN
  rw [Nat.div_lt_iff_lt_mul hc]
  calc i < N := hi
    _ ≤ nRows N * nCols N := le_rows_mul_cols N hN

/-- The clamped row count is the floor of the real square root of the
station count (the clamp never fires for `N ≥ 1`). -/
lemma nRows_eq_floor_sqrt (N : ℕ) (hN : 1 ≤ N) :
    nRows N = ⌊Real.sqrt (N : ℝ)⌋₊ := by
  have h : 0 < Nat.sqrt N := Nat.sqrt_pos.mpr hN
  unfold nRows
  rw [if_neg (by omega)]
  exact Real.nat_floor_real_sqrt_eq_nat_sqrt.symm

/-- The column count is the rational ceiling of `N / nRows N`. -/
lemma nCols_eq_ceil (N : ℕ) (hN : 1 ≤ N) :
    (nCols N : ℤ) = ⌈(N : ℚ) / (nRows N : ℚ)⌉ := by
  have hr := nRows_pos N
  have hc := nCols_pos N hN
  have h1 := le_rows_mul_cols N hN
  have h2 := rows_mul_cols_lt N hN
  have hrq : (0 : ℚ) < (nRows N : ℚ) := by exact_mod_cast hr
  symm
  rw [Int.ceil_eq_iff]
  constructor
  · rw [lt_div_iff₀ hrq]
    have h2q : (nRows N : ℚ) * (nCols N : ℚ) < (N : ℚ) + (nRows N : ℚ) := by
      exact_mod_cast h2
    push_cast
    nlinarith
  · rw [div_le_iff₀ hrq]
    have h1q : (N : ℚ) ≤ (nRows N : ℚ) * (nCols N : ℚ) := by exact_mod_cast h1
    push_cast
    nlinarith

/-- Distinct station indices receive distinct positions (for `N ≥ 1`,
`A > 0`): the x-coordinate determines the column, the y-coordinate the
row, and (row, column) determines the index. -/
lemma enbPosition_inj (N : ℕ) (hN : 1 ≤ N) (A : ℚ) (hA : 0 < A)
    (i j : ℕ) (hij : i ≠ j) : enbPosition N A i ≠ enbPosition N A j := by
  have hc := nCols_pos N hN
  intro h
  simp only [enbPosition, Prod.mk.injEq] at h
  obtain ⟨hx, hy, -⟩ := h
  have hqx : (0 : ℚ) < A / ((nCols N : ℚ) + 1) := by positivity
  have hqy : (0 : ℚ) < A / ((nRows N : ℚ) + 1) := by
    have := nRows_pos N
    positivity
  have hx2 : ((i % nCols N : ℕ) + 1 : ℚ) = ((j % nCols N : ℕ) + 1 : ℚ) :=
    mul_right_cancel₀ (ne_of_gt hqx) (by linarith)
  have hy2 : ((i / nCols N : ℕ) + 1 : ℚ) = ((j / nCols N : ℕ) + 1 : ℚ) :=
    mul_right_cancel₀ (ne_of_gt hqy) (by linarith)
  have hmod : i % nCols N = j % nCols N := by
    have : i % nCols N + 1 = j % nCols N + 1 := by exact_mod_cast hx2
    omega
  have hdiv : i / nCols N = j / nCols N := by
    have : i / nCols N + 1 = j / nCols N + 1 := by exact_mod_cast hy2
    omega
  apply hij
  have d1 := Nat.div_add_mod i (nCols N)
  have d2 := Nat.div_add_mod j (nCols N)
  rw [hdiv, hmod] at d1
  omega

/-- Concrete grid dimensions for one station. -/
lemma nRows_one : nRows 1 = 1 := by norm_num [nRows]

lemma nCols_one : nCols 1 = 1 := by norm_num [nCols, nRows]

/-- Concrete grid dimensions for seven stations. -/
lemma nRows_seven : nRows 7 = 2 := by norm_num [nRows]

lemma nCols_seven : nCols 7 = 4 := by norm_num [nCols, nRows]

/-- C1: the aggregation loop adds a flow's cumulative jitter into the
jitter total exactly when that flow received strictly more than one packet
(flows with 0 or 1 received packet are excluded, not zero-filled); the
reported mean jitter is `totalJitterSum / (totalRxPackets − 1)` seconds —
with `totalRxPackets` the global received-packet count summed over all
flows — whenever `totalRxPackets > 1` and `0` otherwise (here scaled by
1000 into milliseconds as printed); on the spec's two-flow example
(15 received packets, jitter sums 0.2 s and 0.05 s) the reported mean
jitter is `(0.25 / 14) s`, i.e. `125/7 ≈ 17.86 ms`. -/
theorem C1_mean_jitter (fl : List FlowStats) (T : ℚ) :
    (List.foldl accumFlowMulti initTotals fl).totalJitter = sumJitterGuarded fl ∧
    (aggregateMulti fl T).jitterMs =
      (if 1 < sumRx fl then sumJitterGuarded fl / ((sumRx fl - 1 : ℕ) : ℚ) else 0)
        * 1000 ∧
    sumRx exampleFlows = 15 ∧
    (aggregateMulti exampleFlows 60).jitterMs = 1 / 4 / 14 * 1000 ∧
    1 / 4 / 14 * 1000 = (125 : ℚ) / 7 := by
  refine ⟨by rw [totals_multi], ?_, by decide, ?_, by norm_num⟩
  case refine_2 =>
    simp [aggregateMulti, totals_exampleFlows]
  by_cases h1 : 1 < sumRx fl
  · have h0 : 0 < sumRx fl := by omega
    simp [aggregateMulti, totals_multi, h0, h1]
  · by_cases h0 : 0 < sumRx fl
    · simp [aggregateMulti, totals_multi, h0, h1]
    · simp [aggregateMulti, totals_multi, h0, h1]

/-- C3: the aggregation loop adds every flow's cumulative delay into the
delay total unconditionally (no special case for flows with zero received
packets), and the reported mean delay is `totalDelaySum / totalRxPackets`
seconds whenever `totalRxPackets > 0` and `0` otherwise (scaled by 1000
into milliseconds as printed). -/
theorem C3_mean_delay (fl : List FlowStats) (T : ℚ) :
    (List.foldl accumFlowMulti initTotals fl).totalDelay = sumDelay fl ∧
    (aggregateMulti fl T).meanDelayMs =
      (if 0 < sumRx fl then sumDelay fl / (sumRx fl : ℚ) else 0) * 1000 := by
  refine ⟨by rw [totals_multi], ?_⟩
  by_cases h0 : 0 < sumRx fl
  · simp [aggregateMulti, totals_multi, h0]
  · simp [aggregateMulti, totals_multi, h0]

/-- C6: the reported loss rate in percent is
`totalLost × 100 / (totalRxPackets + totalLost)` whenever
`totalRxPackets + totalLost > 0` and `0` otherwise; on the spec's
two-flow example (15 received, 2 lost) it is `200/17 ≈ 11.76 %`. -/
theorem C6_loss_rate (fl : List FlowStats) (T : ℚ) :
    (aggregateMulti fl T).lossRatePct =
      (if 0 < sumRx fl + sumLost fl then
          (sumLost fl : ℚ) * 100 / ((sumRx fl + sumLost fl : ℕ) : ℚ)
        else 0) ∧
    (aggregateMulti exampleFlows 60).lossRatePct = 200 / 17 := by
  refine ⟨?_, ?_⟩
  case refine_2 =>
    simp [aggregateMulti, totals_exampleFlows]
    norm_num
  by_cases h : 0 < sumRx fl + sumLost fl
  · simp [aggregateMulti, totals_multi, h]
  · simp [aggregateMulti, totals_multi, h]

/-- C7: for a positive simulation horizon `T`, the reported total
throughput is `totalRxBytes × 8 / (T × 1,000,000)` Mbps whenever
`totalRxPackets > 0`, and is `0` whenever `totalRxPackets = 0` no matter
how many bytes were counted. -/
theorem C7_throughput (fl : List FlowStats) (T : ℚ) (hT : 0 < T) :
    (aggregateMulti fl T).throughputMbps =
      (if 0 < sumRx fl then (sumBytes fl : ℚ) * 8 / (T * 1000000) else 0) ∧
    (sumRx fl = 0 → (aggregateMulti fl T).throughputMbps = 0) := by
  constructor
  · by_cases h : 0 < sumRx fl
    · simp [aggregateMulti, totals_multi, h]
    · simp [aggregateMulti, totals_multi, h]
  · intro h
    simp [aggregateMulti, totals_multi, h]

/-- Witness for C7 at the spec's two-flow example and `T = 60 s`. -/
theorem C7_throughput_witness :
    (0 : ℚ) < 60 ∧
    ((aggregateMulti exampleFlows 60).throughputMbps =
      (if 0 < sumRx exampleFlows then
          (sumBytes exampleFlows : ℚ) * 8 / (60 * 1000000)
        else 0) ∧
     (sumRx exampleFlows = 0 → (aggregateMulti exampleFlows 60).throughputMbps = 0)) :=
  ⟨by norm_num, C7_throughput exampleFlows 60 (by norm_num)⟩

/-- C2 counterexample: one flow with 0 received and 5 lost packets has
zero received packets across all flows, yet the aggregation reports a
loss rate of 100 %, not 0 — the claim's `lossRate = 0` fails. -/
theorem C2_counterexample :
    sumRx [lostOnlyFlow] = 0 ∧
    (aggregateMulti [lostOnlyFlow] 60).lossRatePct = 100 ∧
    ¬ (aggregateMulti [lostOnlyFlow] 60).lossRatePct = 0 := by
  refine ⟨by decide, ?_, ?_⟩ <;>
    · simp only [aggregateMulti]
      rw [totals_lostOnlyFlow]
      norm_num

/-- C2 (amended): for every FlowRecord set in which zero packets were
received across all flows, the report has `meanDelay = 0`,
`meanJitter = 0` and `throughput = 0`; the loss rate is additionally `0`
when no packets were lost either (all-zero records, empty set included) —
with lost packets but no received ones the code reports 100 % loss. -/
theorem C2_zero_rx_amended (fl : List FlowStats) (T : ℚ) (h : sumRx fl = 0) :
    (aggregateMulti fl T).meanDelayMs = 0 ∧
    (aggregateMulti fl T).jitterMs = 0 ∧
    (aggregateMulti fl T).throughputMbps = 0 ∧
    (sumLost fl = 0 → (aggregateMulti fl T).lossRatePct = 0) := by
  refine ⟨?_, ?_, ?_, ?_⟩
  · simp [aggregateMulti, totals_multi, h]
  · simp [aggregateMulti, totals_multi, h]
  · simp [aggregateMulti, totals_multi, h]
  · intro h2
    simp [aggregateMulti, totals_multi, h, h2]

/-- Witness for the amended C2 at the empty record set and `T = 60 s`. -/
theorem C2_zero_rx_witness :
    (aggregateMulti [] 60).meanDelayMs = 0 ∧
    (aggregateMulti [] 60).jitterMs = 0 ∧
    (aggregateMulti [] 60).throughputMbps = 0 ∧
    (sumLost ([] : List FlowStats) = 0 → (aggregateMulti [] 60).lossRatePct = 0) :=
  C2_zero_rx_amended [] 60 (by decide)

/-- C4: for `N ≥ 1` stations over a square of side `A > 0`, the grid uses
`rows = floor(sqrt(N))` clamped to at least 1 and `columns = ceil(N/rows)`;
station `i` sits at `x = −A/2 + ((i mod columns)+1)·A/(columns+1)`,
`y = −A/2 + ((i div columns)+1)·A/(rows+1)` at constant height 30; for
`N = 1`, `rows = columns = 1` and the station is at the area center, and
for `N = 7`, `A = 2000`, `rows = 2`, `columns = 4` and station 6 is at
`x = 200`, `y = 1000/3 ≈ 333.33`. -/
theorem C4_grid_layout (N : ℕ) (A : ℚ) (hN : 1 ≤ N) (hA : 0 < A) :
    nRows N = ⌊Real.sqrt (N : ℝ)⌋₊ ∧
    (nCols N : ℤ) = ⌈(N : ℚ) / (nRows N : ℚ)⌉ ∧
    (∀ i, i < N →
      enbPosition N A i =
        (-(A / 2) + ((i % nCols N : ℕ) + 1 : ℚ) * (A / ((nCols N : ℚ) + 1)),
         -(A / 2) + ((i / nCols N : ℕ) + 1 : ℚ) * (A / ((nRows N : ℚ) + 1)),
         30)) ∧
    (nRows 1 = 1 ∧ nCols 1 = 1 ∧ enbPosition 1 A 0 = (0, 0, 30)) ∧
    (nRows 7 = 2 ∧ nCols 7 = 4 ∧ enbPosition 7 2000 6 = (200, 1000 / 3, 30)) := by
  refine ⟨nRows_eq_floor_sqrt N hN, nCols_eq_ceil N hN, fun i _ => rfl,
    ⟨nRows_one, nCols_one, ?_⟩, nRows_seven, nCols_seven, ?_⟩
  · simp [enbPosition, nRows_one, nCols_one, Prod.ext_iff]
    ring
  · simp [enbPosition, nRows_seven, nCols_seven, Prod.ext_iff]
    norm_num

/-- Witness for C4 at `N = 7`, `A = 2000`. -/
theorem C4_grid_layout_witness :
    nRows 7 = 2 ∧ nCols 7 = 4 ∧ enbPosition 7 2000 6 = (200, 1000 / 3, 30) :=
  (C4_grid_layout 7 2000 (by norm_num) (by norm_num)).2.2.2.2

/-- C5: for `N ≥ 1` and `A > 0` the placement produces exactly `N`
positions, every station's x and y coordinates lie strictly between
`−A/2` and `A/2`, and no two distinct station indices share a position. -/
theorem C5_positions_inside_distinct (N : ℕ) (A : ℚ) (hN : 1 ≤ N) (hA : 0 < A) :
    (enbPositions N A).length = N ∧
    (∀ i, i < N →
      -(A / 2) < (enbPosition N A i).1 ∧ (enbPosition N A i).1 < A / 2 ∧
      -(A / 2) < (enbPosition N A i).2.1 ∧ (enbPosition N A i).2.1 < A / 2) ∧
    (∀ i j, i < N → j < N → i ≠ j → enbPosition N A i ≠ enbPosition N A j) := by
  refine ⟨by simp [enbPositions], ?_, ?_⟩
  · intro i hi
    have hc := nCols_pos N hN
    have hmod : i % nCols N < nCols N := Nat.mod_lt i hc
    have hrow : i / nCols N < nRows N := row_lt_nRows N hN i hi
    have hx := coord_strict_bounds A hA (i % nCols N) (nCols N) hmod
    have hy := coord_strict_bounds A hA (i / nCols N) (nRows N) hrow
    exact ⟨hx.1, hx.2, hy.1, hy.2⟩
  · intro i j _ _ hij
    exact enbPosition_inj N hN A hA i j hij

/-- Witness for C5 at `N = 7`, `A = 2000`: seven positions, the first and
the seventh distinct. -/
theorem C5_positions_witness :
    (enbPositions 7 2000).length = 7 ∧
    enbPosition 7 2000 0 ≠ enbPosition 7 2000 6 :=
  ⟨(C5_positions_inside_distinct 7 2000 (by norm_num) (by norm_num)).1,
   (C5_positions_inside_distinct 7 2000 (by norm_num) (by norm_num)).2.2 0 6
     (by norm_num) (by norm_num) (by norm_num)⟩

/-- C8: the technology selector recognizes exactly `"4g"` (50 resource
blocks uplink and downlink, 10 ms core transport delay) and `"5g"`
(100 resource blocks, 2 ms); every other selector value aborts
(`NS_ABORT_MSG`, modelled as `none`) before any simulation work begins. -/
theorem C8_tech_profiles :
    selectTech "4g" = some ⟨50, 50, 10⟩ ∧
    selectTech "5g" = some ⟨100, 100, 2⟩ ∧
    ∀ s : String, s ≠ "4g" → s ≠ "5g" → selectTech s = none := by
  refine ⟨rfl, rfl, ?_⟩
  intro s h4 h5
  simp [selectTech, h4, h5]

/-- Witness for C8 at the unrecognized selector `"3g"`. -/
theorem C8_tech_profiles_witness : selectTech "3g" = none :=
  C8_tech_profiles.2.2 "3g" (by decide) (by decide)

/-- C9: each variant configures exactly one UDP constant-bit-rate flow per
terminal with packet size 200 bytes, send interval 100 ms (single cell)
or 20 ms (multi cell), the effectively unbounded `MaxPackets` sentinel
`0xFFFFFFFF` (the flow sends until its stop time), start time 0.5 s and
stop time equal to the simulation horizon. -/
theorem C9_traffic_model (nUes : ℕ) (simTime : ℚ) :
    (singleCellClientApps nUes simTime).length = nUes ∧
    (∀ app ∈ singleCellClientApps nUes simTime,
      app = ⟨4294967295, 1 / 10, 200, 1 / 2, simTime⟩) ∧
    (multiCellClientApps nUes simTime).length = nUes ∧
    (∀ app ∈ multiCellClientApps nUes simTime,
      app = ⟨4294967295, 1 / 50, 200, 1 / 2, simTime⟩) := by
  refine ⟨by simp [singleCellClientApps], ?_, by simp [multiCellClientApps], ?_⟩
  · intro app happ
    simp only [singleCellClientApps, List.mem_map] at happ
    obtain ⟨a, -, h⟩ := happ
    exact h.symm
  · intro app happ
    simp only [multiCellClientApps, List.mem_map] at happ
    obtain ⟨a, -, h⟩ := happ
    exact h.symm

/-- Witness for C9: the configuration of the client of the first of two
UEs over a 60 s horizon. -/
theorem C9_traffic_model_witness :
    (⟨4294967295, 1 / 10, 200, 1 / 2, (60 : ℚ)⟩ : UdpClientApp) ∈
        singleCellClientApps 2 60 ∧
    (⟨4294967295, 1 / 10, 200, 1 / 2, (60 : ℚ)⟩ : UdpClientApp) =
        ⟨4294967295, 1 / 10, 200, 1 / 2, 60⟩ :=
  ⟨by simp [singleCellClientApps],
   (C9_traffic_model 2 60).2.1 ⟨4294967295, 1 / 10, 200, 1 / 2, 60⟩
     (by simp [singleCellClientApps])⟩

/-- C10: the flow-statistics aggregation stages of the single-cell and
multi-cell programs are the same function — the loop bodies are equal and
on equal flow sets and horizons the full reports coincide. -/
theorem C10_aggregation_stages_equal :
    accumFlowSingle = accumFlowMulti ∧
    ∀ (fl : List FlowStats) (T : ℚ), aggregateSingle fl T = aggregateMulti fl T :=
  ⟨rfl, fun _ _ => rfl⟩

end CellularSim
